import Mathlib

/-!
Shallow embedding of the Shirakawa-go availability monitoring bot
(`src/scraper/scraper.py`, `main.py`; the `cloud/main.py` variant shares the
same scraper logic verbatim).

The browser-automation layer (Selenium) is modelled by an explicit
environment: a `Grid` describes what the rendered results table would let the
driver observe (cells by synthesized identifier, the hotel link of a cell's
preceding sibling column, and the day-column header labels), and an `Env`
describes the outcome of each automation step (driver setup, page load, date
inputs, search click, and the wait for the results table). A `find_element`
call that would raise is modelled by `Option.none`; exception handlers in the
Python code become the corresponding `match` branches. `check_availability`
additionally returns the number of `driver.quit()` calls performed, so that
session-release behaviour is visible in the model.
-/

/-- A calendar date as used by the scraper (`datetime` restricted to the
fields the code reads: year, month, day). -/
structure PyDate where
  year : Nat
  month : Nat
  day : Nat
deriving DecidableEq, Repr

/-- The `Hotel` dataclass: id, name, and the availability mapping
(`Dict[str, str]`, insertion-ordered, modelled as an association list). -/
structure Hotel where
  id : String
  name : String
  availability : List (String × String)
deriving DecidableEq, Repr

/-- The `AvailabilityResult` dataclass. -/
structure AvailabilityResult where
  date : PyDate
  hotels : List Hotel
  error : Option String
deriving DecidableEq, Repr

/-- What the driver can observe about one grid cell with identifier
`ypro_stock_calendar{row}_{day}`: its class tokens (the result of
`cell.get_attribute('class').split()`) and, when the XPath lookup
`./preceding-sibling::td[@class='cal_gp_hotel']//a` succeeds and that link's
`onclick` attribute is a string, that attribute's value. `hotelLinkOnclick =
none` models either a failing sibling-link lookup or a `None` attribute (both
raise inside the scan's `try`). -/
structure Cell where
  classTokens : List String
  hotelLinkOnclick : Option String
deriving DecidableEq, Repr

/-- The rendered results grid as observable through `find_element`:
`cells row day` is the cell with id `ypro_stock_calendar{row}_{day}` (`none`
when the lookup raises `NoSuchElementException`), `headers day` the text of
`ypro_stock_calendar_header{day}`. -/
structure Grid where
  cells : Nat → Nat → Option Cell
  headers : Nat → Option String

/-- Python's `needle in hay` on strings: contiguous-substring test. -/
def pyInStr (needle hay : String) : Bool :=
  (List.range (hay.length + 1)).any fun i => needle.data.isPrefixOf (hay.data.drop i)

/-- Registry `MONITORED_HOTELS`: the hardcoded registry, a dict literal whose
`.items()` iterates in insertion order. -/
def MONITORED_HOTELS : List (String × String) :=
  [("21560043", "Yokichi"), ("21560029", "Magoemon"), ("21560055", "YOSHIRO")]

/-- Classifier `parse_availability_status` over the cell's class-token list
(`cell.get_attribute('class').split()`). -/
def parse_availability_status (classes : List String) : String :=
  if classes.contains "m01" && classes.contains "m01_col" then "AVAILABLE"
  else if classes.contains "m02" && classes.contains "m02_col" then "ALMOST_FULL"
  else if classes.contains "m03" then "BOOKED"
  else "NOT_OPEN"

/-- The row scan of `get_hotel_availability` for one day-column: the
`while row < 30` loop. The loop variable `cell` starts as `None`; on each
row the code tries to find the cell, then the sibling hotel link, then
tests `hotel_id in onclick`:
* cell lookup fails → `cell` is left unchanged (the assignment never runs);
* cell found, link lookup or attribute read raises → the bare `except` runs
  with `cell` already reassigned, so the scan carries `some` that cell;
* link found and id matches → `break` with that cell;
* link found, no match → `cell = None`.
`fuel` counts the remaining iterations (30 at `row = 0`). -/
def scanRows (g : Grid) (hotelId : String) (day : Nat) :
    Nat → Nat → Option Cell → Option Cell
  | 0, _, c => c
  | fuel + 1, row, c =>
    match g.cells row day with
    | none => scanRows g hotelId day fuel (row + 1) c
    | some cl =>
      match cl.hotelLinkOnclick with
      | none => scanRows g hotelId day fuel (row + 1) (some cl)
      | some s =>
        if pyInStr hotelId s then some cl
        else scanRows g hotelId day fuel (row + 1) none

/-- Python-dict assignment `d[k] = v` on an insertion-ordered association
list: update in place when the key exists, else append. -/
def dictInsert (k v : String) : List (String × String) → List (String × String)
  | [] => [(k, v)]
  | (k', v') :: rest =>
    if k' == k then (k, v) :: rest else (k', v') :: dictInsert k v rest

/-- The `for day in range(10)` loop of `get_hotel_availability`, carrying the
`availability` dict. When the scan left a cell but the header lookup raises,
the exception escapes to the method's outer `try`, which logs and returns the
dict built so far. -/
def extractDays (g : Grid) (hotelId : String) :
    List Nat → List (String × String) → List (String × String)
  | [], acc => acc
  | day :: rest, acc =>
    match scanRows g hotelId day 30 0 none with
    | none => extractDays g hotelId rest acc
    | some cl =>
      match g.headers day with
      | none => acc
      | some h =>
        extractDays g hotelId rest
          (dictInsert h (parse_availability_status cl.classTokens) acc)

/-- Extraction `get_hotel_availability`: probe the 10 day-columns, scanning up to 30
rows each, and record `availability[date_header] = status` for every owning
cell found. Never raises: every internal failure is absorbed. -/
def get_hotel_availability (g : Grid) (hotelId : String) :
    List (String × String) :=
  extractDays g hotelId (List.range 10) []

/-- Outcome environment for one `check_availability` run: what each
automation step would do. `setupRaises` models an exception before
`self.driver` is assigned (so the `finally` sees `driver = None`);
`loadRaises` an exception after assignment (page load /`implicitly_wait`);
`dateOk`/`searchOk` the boolean results of `set_date`/`click_search`;
`tableAppearsAt` the time (if any) at which an element of class
`ypro_tbl_cal` becomes present; `grid` the rendered results table. -/
structure Env where
  setupRaises : Option String
  loadRaises : Option String
  dateOk : Bool
  searchOk : Bool
  tableAppearsAt : Option Nat
  grid : Grid

/-- Model of `WebDriverWait(driver, timeout).until(presence_of_element_located(...))`:
succeeds iff the element appears within the timeout. -/
def waitUntilPresent (appearsAt : Option Nat) (timeout : Nat) : Bool :=
  match appearsAt with
  | none => false
  | some t => t ≤ timeout

/-- Number of driver sessions a run of `check_availability` creates: `1`
unless `webdriver.Chrome(...)` itself raises. -/
def sessionsCreated (e : Env) : Nat :=
  match e.setupRaises with
  | some _ => 0
  | none => 1

/-- Orchestrator `check_availability`, returning the result together with the number of
`driver.quit()` calls made by the `finally` block (`if self.driver:
self.driver.quit()`). All exception paths are converted to an
`AvailabilityResult` with empty `hotels` and a message in `error`; the
results-table wait uses the fixed 10-unit timeout. -/
def check_availability (e : Env) (date : PyDate) : AvailabilityResult × Nat :=
  match e.setupRaises with
  | some m => ({ date := date, hotels := [], error := some ("Unexpected error: " ++ m) }, 0)
  | none =>
    match e.loadRaises with
    | some m => ({ date := date, hotels := [], error := some ("Unexpected error: " ++ m) }, 1)
    | none =>
      if !e.dateOk then
        ({ date := date, hotels := [], error := some "Failed to set date" }, 1)
      else if !e.searchOk then
        ({ date := date, hotels := [], error := some "Failed to click search" }, 1)
      else if !waitUntilPresent e.tableAppearsAt 10 then
        ({ date := date, hotels := [], error := some "Timeout waiting for results" }, 1)
      else
        ({ date := date
           hotels := MONITORED_HOTELS.map fun p =>
             { id := p.1, name := p.2, availability := get_hotel_availability e.grid p.1 }
           error := none }, 1)

/-- The list `special_chars` of `escape_markdown` in `main.py`. -/
def special_chars : List String :=
  ["_", "*", "[", "]", "(", ")", "~", "`", ">", "#", "+", "-", "=", "|",
   "\x7b", "\x7d", ".", "!"]

/-- Python `str.replace(old, new)` for a single-character `old` (every entry of
`special_chars` is one character, so `replace` degenerates to substituting
each occurrence of that character). -/
def replaceChar (c : Char) (new : List Char) : List Char → List Char
  | [] => []
  | x :: xs => (if x == c then new else [x]) ++ replaceChar c new xs

/-- Helper `escape_markdown`: successive `text.replace(char, "\\" + char)` over the
special-character list. -/
def escape_markdown (text : String) : String :=
  String.mk (special_chars.foldl
    (fun t c =>
      match c.data with
      | [] => t
      | p :: _ => replaceChar p ("\\" ++ c).data t)
    text.data)

/-- Python `s.startswith(prefix)`. -/
def pyStartsWith (s pre : String) : Bool :=
  pre.data.isPrefixOf s.data

/-- Python `sep.join(parts)`. -/
def pyJoin (sep : String) : List String → String
  | [] => ""
  | [x] => x
  | x :: y :: xs => x ++ sep ++ pyJoin sep (y :: xs)

/-- Fields `strftime("%m")` / `strftime("%d")`: zero-padded two-digit field. -/
def pad2 (n : Nat) : String :=
  if n < 10 then "0" ++ toString n else toString n

/-- Python `str.lstrip("0")`: drop every leading `0` character. -/
def lstripZeros (s : String) : String :=
  String.mk (s.data.dropWhile fun c => c == Char.ofNat 48)

/-- The formatter's target-date string:
`date.strftime("%m").lstrip("0") + '/' + date.strftime("%d").lstrip("0")`. -/
def targetDateStr (d : PyDate) : String :=
  lstripZeros (pad2 d.month) ++ "/" ++ lstripZeros (pad2 d.day)

/-- Date `strftime("%Y-%m-%d")` (years of interest are four-digit). -/
def dateISO (d : PyDate) : String :=
  toString d.year ++ "-" ++ pad2 d.month ++ "-" ++ pad2 d.day

/-- The per-hotel status-selection loop of `format_availability_message`:
`status` starts as `"UNKNOWN"` and the first availability entry whose key
starts with the target-date string wins (`break`). -/
def statusLoop (target : String) : List (String × String) → String
  | [] => "UNKNOWN"
  | (k, v) :: rest => if pyStartsWith k target then v else statusLoop target rest

/-- The `status_emoji` lookup dict with default `"❓"`. -/
def statusEmoji (s : String) : String :=
  if s == "AVAILABLE" then "⭕⭕⭕⭕⭕"
  else if s == "ALMOST_FULL" then "⚠⚠⚠⚠⚠⚠"
  else if s == "BOOKED" then "❌"
  else if s == "NOT_OPEN" then "➖"
  else if s == "UNKNOWN" then "❓"
  else "❓"

/-- One entry of `message_parts` for a hotel:
`f"*{hotel_name}*:\n{date_str}: {status_emoji} {status_str}"`. -/
def formatHotelPart (target : String) (h : Hotel) : String :=
  "*" ++ escape_markdown h.name ++ "*:\n" ++ escape_markdown target ++ ": "
    ++ statusEmoji (statusLoop target h.availability) ++ " "
    ++ escape_markdown (statusLoop target h.availability)

/-- Formatter `format_availability_message` from `main.py`: the error short-circuit,
then header lines and one part per hotel, joined by `"\n\n"`. -/
def format_availability_message (result : AvailabilityResult) : String :=
  match result.error with
  | some e => "❌ Error checking availability: " ++ escape_markdown e
  | none =>
    pyJoin "\n\n"
      (["🏡 *Shirakawago Availability Report*",
        "Date: " ++ dateISO result.date ++ "\n"]
        ++ result.hotels.map (formatHotelPart (targetDateStr result.date)))

example : targetDateStr ⟨2025, 2, 9⟩ = "2/9" := by decide
example : targetDateStr ⟨2024, 12, 21⟩ = "12/21" := by decide
example : statusLoop "2/9" [("2/9(Sun)", "AVAILABLE")] = "AVAILABLE" := by decide
example : escape_markdown "a.b-c" = "a\\.b\\-c" := by decide

example : parse_availability_status ["mark", "m01", "m01_col"] = "AVAILABLE" := by decide
example : parse_availability_status ["mark", "m03"] = "BOOKED" := by decide
example : parse_availability_status ["mark"] = "NOT_OPEN" := by decide
example : pyInStr "2156" "foo21560043bar" = true := by decide
example : pyInStr "2156" "foo215" = false := by decide

/-- Any automation-layer failure on the way to the results grid: setup/load
exception, date-input failure, search-click failure, or results timeout. -/
def navFails (e : Env) : Bool :=
  e.setupRaises.isSome || e.loadRaises.isSome || !e.dateOk || !e.searchOk ||
    !waitUntilPresent e.tableAppearsAt 10

/-- Build a `Grid` from finite association lists: cell `(row, day)` entries
and header `day` entries. Used for concrete example pages. -/
def gridOfLists (cellsL : List (Nat × Nat × Cell))
    (headersL : List (Nat × String)) : Grid where
  cells r d := (cellsL.find? fun t => t.1 == r && t.2.1 == d).map fun t => t.2.2
  headers d := (headersL.find? fun t => t.1 == d).map fun t => t.2

/-- A page whose results grid renders nothing at all. -/
def emptyGrid : Grid := gridOfLists [] []

/-- Run outcome: everything works until the results table, which never
appears. -/
def envTimeout : Env :=
  { setupRaises := none, loadRaises := none, dateOk := true, searchOk := true
    tableAppearsAt := none, grid := emptyGrid }

/-- Run outcome: the date inputs cannot be written (`set_date` returns
`False`). -/
def envDateFail : Env :=
  { setupRaises := none, loadRaises := none, dateOk := false, searchOk := true
    tableAppearsAt := some 0, grid := emptyGrid }

/-- Run outcome: every step succeeds; the grid happens to be empty. -/
def envOk : Env :=
  { setupRaises := none, loadRaises := none, dateOk := true, searchOk := true
    tableAppearsAt := some 3, grid := emptyGrid }

/-- A grid holding a single cell whose sibling hotel-link lookup raises
(`hotelLinkOnclick = none`), plus the day-0 header. -/
def danglingCells : List (Nat × Nat × Cell) :=
  [(0, 0, { classTokens := ["mark"], hotelLinkOnclick := none })]

/-- Headers for the dangling-cell grid. -/
def danglingHeaders : List (Nat × String) := [(0, "2/9")]

/-- A grid holding a single cell with a readable hotel link naming a hotel
other than the monitored ones. -/
def linkedCells : List (Nat × Nat × Cell) :=
  [(0, 0, { classTokens := ["mark", "m01", "m01_col"],
            hotelLinkOnclick := some "SelectPro(21560099)" })]

/-- Headers for the linked-cell grid. -/
def linkedHeaders : List (Nat × String) := [(0, "2/9")]

/-- Concrete page for the probe-bounds witness. -/
def probeGridA : Grid :=
  gridOfLists
    [(0, 0, { classTokens := ["mark", "m01", "m01_col"],
              hotelLinkOnclick := some "SelectPro(21560043)" })]
    [(0, "2/9")]

/-- Grid `probeGridA` with junk added outside the probed index ranges: an extra
cell at row 40 and an extra header at day 12. -/
def probeGridB : Grid where
  cells r d :=
    if r = 40 then some { classTokens := ["m03"], hotelLinkOnclick := none }
    else probeGridA.cells r d
  headers d := if d = 12 then some "junk" else probeGridA.headers d

/-- A hotel record as the extractor would build it for the end-to-end
formatter scenario. -/
def hotelY : Hotel :=
  { id := "21560043", name := "Yokichi", availability := [("2/9", "AVAILABLE")] }

/-- A successful result for the February 9 query containing `hotelY`. -/
def res69 : AvailabilityResult :=
  { date := { year := 2025, month := 2, day := 9 }, hotels := [hotelY], error := none }

/-! ### Helper lemmas -/

theorem contains_true_iff (l : List String) (s : String) :
    l.contains s = true ↔ s ∈ l := by
  simp [List.contains]

theorem parse_availability_status_mem (cs : List String) :
    parse_availability_status cs ∈
      (["AVAILABLE", "ALMOST_FULL", "BOOKED", "NOT_OPEN"] : List String) := by
  unfold parse_availability_status
  split
  · simp
  · split
    · simp
    · split <;> simp

/-! ### C1 -/

/-- C1: `parse_availability_status` implements the ordered decision table:
AVAILABLE when the token set has both `m01` and `m01_col`, else ALMOST_FULL
when it has both `m02` and `m02_col`, else BOOKED when it has `m03`, else
NOT_OPEN; in particular any token list containing both `m01` and `m01_col`
yields AVAILABLE regardless of extraneous tokens. -/
theorem C1_classifier_decision_table :
    (∀ cs : List String,
      parse_availability_status cs =
        if "m01" ∈ cs ∧ "m01_col" ∈ cs then "AVAILABLE"
        else if "m02" ∈ cs ∧ "m02_col" ∈ cs then "ALMOST_FULL"
        else if "m03" ∈ cs then "BOOKED"
        else "NOT_OPEN") ∧
    (∀ cs : List String, "m01" ∈ cs → "m01_col" ∈ cs →
      parse_availability_status cs = "AVAILABLE") := by
  constructor
  · intro cs
    simp [parse_availability_status, Bool.and_eq_true, contains_true_iff]
  · intro cs h1 h2
    simp [parse_availability_status, contains_true_iff, h1, h2]

/-- Witness for C1 at a concrete token list with extraneous tokens. -/
theorem C1_classifier_decision_table_witness :
    parse_availability_status ["junk", "m01", "extra", "m01_col", "m03"]
      = "AVAILABLE" :=
  C1_classifier_decision_table.2 _ (by simp) (by simp)

/-! ### C5 -/

/-- C5: the classifier is total — every token list maps to one of the four
states — and a token list containing none of the recognized marker
combinations maps to NOT_OPEN. -/
theorem C5_classifier_total (cs : List String) :
    parse_availability_status cs ∈
      (["AVAILABLE", "ALMOST_FULL", "BOOKED", "NOT_OPEN"] : List String) ∧
    (¬("m01" ∈ cs ∧ "m01_col" ∈ cs) → ¬("m02" ∈ cs ∧ "m02_col" ∈ cs) →
      "m03" ∉ cs → parse_availability_status cs = "NOT_OPEN") := by
  refine ⟨parse_availability_status_mem cs, fun h1 h2 h3 => ?_⟩
  unfold parse_availability_status
  rw [if_neg, if_neg, if_neg]
  · simpa [contains_true_iff] using h3
  · simpa [contains_true_iff, - Bool.and_eq_true] using h2
  · simpa [contains_true_iff, - Bool.and_eq_true] using h1

/-- Witness for C5 at the bare `mark` token list. -/
theorem C5_classifier_total_witness :
    parse_availability_status ["mark"] = "NOT_OPEN" ∧
    parse_availability_status ["mark"] ∈
      (["AVAILABLE", "ALMOST_FULL", "BOOKED", "NOT_OPEN"] : List String) :=
  ⟨(C5_classifier_total ["mark"]).2 (by simp) (by simp) (by simp),
   (C5_classifier_total ["mark"]).1⟩

/-! ### C3 -/

/-- C3: in every result of `check_availability`, a set `error` field comes
with an empty `hotels` sequence. -/
theorem C3_error_implies_no_hotels (e : Env) (d : PyDate) (msg : String)
    (h : (check_availability e d).1.error = some msg) :
    (check_availability e d).1.hotels = [] := by
  obtain ⟨sr, lr, dok, sok, ta, g⟩ := e
  cases sr <;> cases lr <;> cases dok <;> cases sok <;>
    cases hw : waitUntilPresent ta 10 <;>
    simp_all [check_availability]

/-- Witness for C3: the timeout run has its error set and no hotels. -/
theorem C3_error_implies_no_hotels_witness :
    (check_availability envTimeout ⟨2025, 2, 9⟩).1.hotels = [] :=
  C3_error_implies_no_hotels envTimeout ⟨2025, 2, 9⟩
    "Timeout waiting for results" rfl

/-! ### C2 -/

/-- C2: `check_availability` is the error boundary. Whenever any
automation-layer step fails (setup/load exception, date inputs, search click,
or the 10-unit wait for the results table), the returned result has empty
`hotels` and a non-`none` `error`; the timeout case in particular returns
exactly the timeout message with no hotels. The `finally` block releases
every created driver session exactly once (`quit` count = sessions created,
and on every path on which a session exists the count is 1); no path
propagates an exception — the function is total on all environments. -/
theorem C2_error_boundary (e : Env) (d : PyDate) :
    (navFails e = true →
      (check_availability e d).1.hotels = [] ∧
      (check_availability e d).1.error ≠ none) ∧
    (e.setupRaises = none → e.loadRaises = none → e.dateOk = true →
      e.searchOk = true → waitUntilPresent e.tableAppearsAt 10 = false →
      (check_availability e d).1 =
        { date := d, hotels := [], error := some "Timeout waiting for results" }) ∧
    (∀ m, e.setupRaises = some m →
      (check_availability e d).1 =
        { date := d, hotels := [], error := some ("Unexpected error: " ++ m) }) ∧
    (∀ m, e.setupRaises = none → e.loadRaises = some m →
      (check_availability e d).1 =
        { date := d, hotels := [], error := some ("Unexpected error: " ++ m) }) ∧
    (e.setupRaises = none → e.loadRaises = none → e.dateOk = true →
      e.searchOk = false →
      (check_availability e d).1 =
        { date := d, hotels := [], error := some "Failed to click search" }) ∧
    (check_availability e d).2 = sessionsCreated e ∧
    (e.setupRaises = none → (check_availability e d).2 = 1) := by
  obtain ⟨sr, lr, dok, sok, ta, g⟩ := e
  cases sr <;> cases lr <;> cases dok <;> cases sok <;>
    cases hw : waitUntilPresent ta 10 <;>
    simp_all [check_availability, navFails, sessionsCreated]

/-- Witness for C2 on the concrete timeout run. -/
theorem C2_error_boundary_witness :
    (check_availability envTimeout ⟨2025, 2, 9⟩).1.hotels = [] ∧
    (check_availability envTimeout ⟨2025, 2, 9⟩).1 =
      { date := ⟨2025, 2, 9⟩, hotels := []
        error := some "Timeout waiting for results" } ∧
    (check_availability envTimeout ⟨2025, 2, 9⟩).2 = 1 :=
  ⟨((C2_error_boundary envTimeout ⟨2025, 2, 9⟩).1 (by decide)).1,
   (C2_error_boundary envTimeout ⟨2025, 2, 9⟩).2.1 rfl rfl rfl rfl (by decide),
   (C2_error_boundary envTimeout ⟨2025, 2, 9⟩).2.2.2.2.2.2 rfl⟩

/-! ### C7 -/

/-- C7: when `set_date` fails, the result carries exactly the error
`"Failed to set date"` with no hotels, and the formatter still produces a
non-empty message for it. -/
theorem C7_date_failure_reported (e : Env) (d : PyDate)
    (h1 : e.setupRaises = none) (h2 : e.loadRaises = none)
    (h3 : e.dateOk = false) :
    (check_availability e d).1.error = some "Failed to set date" ∧
    (check_availability e d).1.hotels = [] ∧
    format_availability_message (check_availability e d).1 ≠ "" := by
  obtain ⟨sr, lr, dok, sok, ta, g⟩ := e
  cases h1; cases h2; cases h3
  refine ⟨rfl, rfl, fun hcontra => ?_⟩
  have h0 : ("❌ Error checking availability: "
      ++ escape_markdown "Failed to set date" : String) = "" := hcontra
  exact absurd h0 (by decide)

/-- Witness for C7 on the concrete failed-date-input run. -/
theorem C7_date_failure_reported_witness :
    (check_availability envDateFail ⟨2025, 2, 9⟩).1.error =
      some "Failed to set date" ∧
    (check_availability envDateFail ⟨2025, 2, 9⟩).1.hotels = [] ∧
    format_availability_message (check_availability envDateFail ⟨2025, 2, 9⟩).1
      ≠ "" :=
  C7_date_failure_reported envDateFail ⟨2025, 2, 9⟩ rfl rfl rfl

/-! ### C9 -/

/-- C9: an error-free result lists exactly the three monitored hotels, in
registry order, with id and name taken verbatim from `MONITORED_HOTELS`. -/
theorem C9_registry_order (e : Env) (d : PyDate)
    (h : (check_availability e d).1.error = none) :
    (check_availability e d).1.hotels.map (fun hl => (hl.id, hl.name)) =
      [("21560043", "Yokichi"), ("21560029", "Magoemon"),
       ("21560055", "YOSHIRO")] ∧
    (check_availability e d).1.hotels.length = 3 := by
  obtain ⟨sr, lr, dok, sok, ta, g⟩ := e
  cases sr <;> cases lr <;> cases dok <;> cases sok <;>
    cases hw : waitUntilPresent ta 10 <;>
    simp_all [check_availability, MONITORED_HOTELS]

/-- Witness for C9 on a concrete fully-successful run. -/
theorem C9_registry_order_witness :
    (check_availability envOk ⟨2025, 2, 9⟩).1.hotels.map
        (fun hl => (hl.id, hl.name)) =
      [("21560043", "Yokichi"), ("21560029", "Magoemon"),
       ("21560055", "YOSHIRO")] ∧
    (check_availability envOk ⟨2025, 2, 9⟩).1.hotels.length = 3 :=
  C9_registry_order envOk ⟨2025, 2, 9⟩ (by decide)

/-! ### C6 -/

/-- C6: the formatter's per-hotel status is the value of the first
availability key that starts with the unpadded `month/day` target string
(`"UNKNOWN"` when no key matches); the error-free message is assembled from
exactly these selections; and for `byDate` mapping `"2/9"` to AVAILABLE with
a February 9 query the reported status is AVAILABLE, not UNKNOWN. -/
theorem C6_formatter_date_prefix :
    (∀ (target : String) (av : List (String × String)),
      statusLoop target av =
        ((av.find? fun p => pyStartsWith p.1 target).map Prod.snd).getD
          "UNKNOWN") ∧
    (∀ res : AvailabilityResult, res.error = none →
      format_availability_message res =
        pyJoin "\n\n"
          (["🏡 *Shirakawago Availability Report*",
            "Date: " ++ dateISO res.date ++ "\n"]
            ++ res.hotels.map fun h =>
              "*" ++ escape_markdown h.name ++ "*:\n"
                ++ escape_markdown (targetDateStr res.date) ++ ": "
                ++ statusEmoji (statusLoop (targetDateStr res.date) h.availability)
                ++ " "
                ++ escape_markdown
                  (statusLoop (targetDateStr res.date) h.availability))) ∧
    statusLoop (targetDateStr ⟨2025, 2, 9⟩) [("2/9", "AVAILABLE")]
      = "AVAILABLE" ∧
    formatHotelPart (targetDateStr ⟨2025, 2, 9⟩) hotelY
      = "*Yokichi*:\n2/9: ⭕⭕⭕⭕⭕ AVAILABLE" := by
  refine ⟨?_, ?_, by decide, by decide⟩
  · intro target av
    induction av with
    | nil => rfl
    | cons p rest ih =>
      obtain ⟨k, v⟩ := p
      by_cases h : pyStartsWith k target
      · simp [statusLoop, List.find?, h]
      · simp [statusLoop, List.find?, h, ih]
  · intro res h
    obtain ⟨dt, hs, err⟩ := res
    cases h
    rfl

/-- Witness for C6: the formatter equation applied to the concrete
February 9 result. -/
theorem C6_formatter_date_prefix_witness :
    format_availability_message res69 =
      pyJoin "\n\n"
        (["🏡 *Shirakawago Availability Report*",
          "Date: " ++ dateISO res69.date ++ "\n"]
          ++ res69.hotels.map fun h =>
            "*" ++ escape_markdown h.name ++ "*:\n"
              ++ escape_markdown (targetDateStr res69.date) ++ ": "
              ++ statusEmoji (statusLoop (targetDateStr res69.date) h.availability)
              ++ " "
              ++ escape_markdown
                (statusLoop (targetDateStr res69.date) h.availability)) :=
  C6_formatter_date_prefix.2.1 res69 rfl

/-! ### C8 -/

theorem scanRows_congr (g g' : Grid) (id : String) (day : Nat) :
    ∀ (fuel row : Nat) (c : Option Cell),
      (∀ r, row ≤ r → r < row + fuel → g.cells r day = g'.cells r day) →
      scanRows g id day fuel row c = scanRows g' id day fuel row c := by
  intro fuel
  induction fuel with
  | zero => intro row c _; rfl
  | succ n ih =>
    intro row c hagree
    have h0 : g.cells row day = g'.cells row day :=
      hagree row (Nat.le_refl _) (by omega)
    have hrest : ∀ r, row + 1 ≤ r → r < row + 1 + n →
        g.cells r day = g'.cells r day := by
      intro r h1 h2
      exact hagree r (by omega) (by omega)
    cases hcell : g'.cells row day with
    | none =>
      simp only [scanRows, h0, hcell]
      exact ih (row + 1) c hrest
    | some cl =>
      cases hlink : cl.hotelLinkOnclick with
      | none =>
        simp only [scanRows, h0, hcell, hlink]
        exact ih (row + 1) (some cl) hrest
      | some s =>
        by_cases hp : pyInStr id s
        · simp [scanRows, h0, hcell, hlink, hp]
        · simp only [scanRows, h0, hcell, hlink, hp, Bool.false_eq_true,
            if_false]
          exact ih (row + 1) none hrest

theorem extractDays_congr (g g' : Grid) (id : String) :
    ∀ (days : List Nat) (acc : List (String × String)),
      (∀ d ∈ days, ∀ r, r < 30 → g.cells r d = g'.cells r d) →
      (∀ d ∈ days, g.headers d = g'.headers d) →
      extractDays g id days acc = extractDays g' id days acc := by
  intro days
  induction days with
  | nil => intro acc _ _; rfl
  | cons day rest ih =>
    intro acc hc hh
    have hscan : scanRows g id day 30 0 none = scanRows g' id day 30 0 none :=
      scanRows_congr g g' id day 30 0 none
        (fun r _ hr => hc day (by simp) r (by omega))
    cases hs : scanRows g' id day 30 0 none with
    | none =>
      simp only [extractDays, hscan, hs]
      exact ih acc (fun d hd => hc d (by simp [hd])) (fun d hd => hh d (by simp [hd]))
    | some cl =>
      cases hhd : g'.headers day with
      | none => simp only [extractDays, hscan, hs, hh day (by simp), hhd]
      | some hd =>
        simp only [extractDays, hscan, hs, hh day (by simp), hhd]
        exact ih _ (fun d hd' => hc d (by simp [hd'])) (fun d hd' => hh d (by simp [hd']))

/-- C8: per-hotel extraction probes only cell identifiers with row index
0–29 and day index 0–9 and only the 10 day headers: two grids that agree on
those positions yield identical extraction results. Termination is
structural — the row scan runs on explicit fuel 30 per day-column and the
day loop on the ten-element `List.range 10`. -/
theorem C8_probe_bounds (g g' : Grid) (id : String)
    (hc : ∀ r d, r < 30 → d < 10 → g.cells r d = g'.cells r d)
    (hh : ∀ d, d < 10 → g.headers d = g'.headers d) :
    get_hotel_availability g id = get_hotel_availability g' id := by
  unfold get_hotel_availability
  exact extractDays_congr g g' id (List.range 10) []
    (fun d hd r hr => hc r d hr (List.mem_range.mp hd))
    (fun d hd => hh d (List.mem_range.mp hd))

/-- Witness for C8: junk outside the probed ranges (a cell at row 40, a
header at day 12) does not change the extraction result. -/
theorem C8_probe_bounds_witness :
    get_hotel_availability probeGridA "21560043" =
      get_hotel_availability probeGridB "21560043" :=
  C8_probe_bounds probeGridA probeGridB "21560043"
    (fun r d hr _ => by
      show probeGridA.cells r d = probeGridB.cells r d
      have h40 : r ≠ 40 := by omega
      simp [probeGridB, h40])
    (fun d hd => by
      show probeGridA.headers d = probeGridB.headers d
      have h12 : d ≠ 12 := by omega
      simp [probeGridB, h12])

/-! ### C10 -/

theorem dictInsert_length (k v : String) (l : List (String × String)) :
    (dictInsert k v l).length ≤ l.length + 1 := by
  induction l with
  | nil => simp [dictInsert]
  | cons p rest ih =>
    obtain ⟨k', v'⟩ := p
    by_cases h : k' == k
    · simp [dictInsert, h]
    · simp only [dictInsert, h, Bool.false_eq_true, if_false, List.length_cons]
      omega

theorem dictInsert_snd_mem (k v : String) (l : List (String × String)) :
    ∀ p ∈ dictInsert k v l, p.2 = v ∨ p.2 ∈ l.map Prod.snd := by
  induction l with
  | nil => simp [dictInsert]
  | cons q rest ih =>
    obtain ⟨k', v'⟩ := q
    intro p hp
    by_cases h : k' == k
    · simp only [dictInsert, h, if_true, List.mem_cons] at hp
      rcases hp with h1 | h1
      · left; rw [h1]
      · right; simp [List.mem_map]; exact Or.inr ⟨p.1, by simpa using h1⟩
    · simp only [dictInsert, h, Bool.false_eq_true, if_false,
        List.mem_cons] at hp
      rcases hp with h1 | h1
      · right; rw [h1]; simp
      · rcases ih p h1 with h2 | h2
        · exact Or.inl h2
        · right; simp only [List.map_cons, List.mem_cons]; exact Or.inr h2

theorem extractDays_length (g : Grid) (id : String) :
    ∀ (days : List Nat) (acc : List (String × String)),
      (extractDays g id days acc).length ≤ acc.length + days.length := by
  intro days
  induction days with
  | nil => intro acc; simp [extractDays]
  | cons day rest ih =>
    intro acc
    cases hs : scanRows g id day 30 0 none with
    | none =>
      simp only [extractDays, hs, List.length_cons]
      have := ih acc
      omega
    | some cl =>
      cases hhd : g.headers day with
      | none =>
        simp only [extractDays, hs, hhd, List.length_cons]
        omega
      | some hd =>
        simp only [extractDays, hs, hhd, List.length_cons]
        have h1 := ih (dictInsert hd (parse_availability_status cl.classTokens) acc)
        have h2 := dictInsert_length hd (parse_availability_status cl.classTokens) acc
        omega

theorem extractDays_snd_mem (g : Grid) (id : String) :
    ∀ (days : List Nat) (acc : List (String × String)) (p : String × String),
      p ∈ extractDays g id days acc →
      p.2 ∈ acc.map Prod.snd ∨
        p.2 ∈ (["AVAILABLE", "ALMOST_FULL", "BOOKED", "NOT_OPEN"] : List String) := by
  intro days
  induction days with
  | nil =>
    intro acc p hp
    simp only [extractDays] at hp
    exact Or.inl (List.mem_map_of_mem Prod.snd hp)
  | cons day rest ih =>
    intro acc p hp
    cases hs : scanRows g id day 30 0 none with
    | none =>
      simp only [extractDays, hs] at hp
      exact ih acc p hp
    | some cl =>
      cases hhd : g.headers day with
      | none =>
        simp only [extractDays, hs, hhd] at hp
        exact Or.inl (List.mem_map_of_mem Prod.snd hp)
      | some hd =>
        simp only [extractDays, hs, hhd] at hp
        rcases ih _ p hp with h1 | h1
        · rcases List.mem_map.mp h1 with ⟨q, hq, hq2⟩
          rcases dictInsert_snd_mem hd (parse_availability_status cl.classTokens)
              acc q hq with h2 | h2
          · right
            rw [← hq2, h2]
            exact parse_availability_status_mem cl.classTokens
          · left; rw [← hq2]; exact h2
        · exact Or.inr h1

/-- C10: every availability mapping produced by `get_hotel_availability` has
at most 10 entries (one per day-column at most, dict updates do not grow it
further) and every stored value is one of the four state strings. -/
theorem C10_availability_bounded (g : Grid) (id : String) :
    (get_hotel_availability g id).length ≤ 10 ∧
    ∀ p ∈ get_hotel_availability g id,
      p.2 ∈ (["AVAILABLE", "ALMOST_FULL", "BOOKED", "NOT_OPEN"] : List String) := by
  constructor
  · have := extractDays_length g id (List.range 10) []
    simpa using this
  · intro p hp
    rcases extractDays_snd_mem g id (List.range 10) [] p hp with h | h
    · simp at h
    · exact h

/-- Witness for C10 on a concrete one-cell grid whose extraction yields the
entry `("2/9", "AVAILABLE")`. -/
theorem C10_availability_bounded_witness :
    (get_hotel_availability probeGridA "21560043").length ≤ 10 ∧
    ("2/9", "AVAILABLE").2 ∈
      (["AVAILABLE", "ALMOST_FULL", "BOOKED", "NOT_OPEN"] : List String) :=
  ⟨(C10_availability_bounded probeGridA "21560043").1,
   (C10_availability_bounded probeGridA "21560043").2 ("2/9", "AVAILABLE")
     (by decide)⟩

/-! ### C4 -/

/-- C4 counterexample: in `danglingCells` the hotel identifier `21560043`
appears in no hotel-link attribute (there is no readable link at all), yet
extraction returns a non-empty mapping. The row scan assigns `cell` before
the sibling-link lookup raises; the bare `except` keeps that assignment, no
later row resets it, and the loop ends treating the cell as owned by the
hotel. -/
theorem C4_counterexample :
    (danglingCells.all fun t =>
      match t.2.2.hotelLinkOnclick with
      | none => true
      | some s => !pyInStr "21560043" s) = true ∧
    get_hotel_availability (gridOfLists danglingCells danglingHeaders)
        "21560043" = [("2/9", "NOT_OPEN")] ∧
    get_hotel_availability (gridOfLists danglingCells danglingHeaders)
        "21560043" ≠ [] := by
  refine ⟨rfl, by decide, by decide⟩

theorem scanRows_none_of_absent (g : Grid) (id : String) (day : Nat)
    (hlinks : ∀ r cl, g.cells r day = some cl →
      ∃ s, cl.hotelLinkOnclick = some s ∧ pyInStr id s = false) :
    ∀ (fuel row : Nat), scanRows g id day fuel row none = none := by
  intro fuel
  induction fuel with
  | zero => intro row; rfl
  | succ n ih =>
    intro row
    cases hc : g.cells row day with
    | none =>
      simp only [scanRows, hc]
      exact ih (row + 1)
    | some cl =>
      obtain ⟨s, hs, hns⟩ := hlinks row cl hc
      simp only [scanRows, hc, hs, hns, Bool.false_eq_true, if_false]
      exact ih (row + 1)

/-- C4 as amended: extraction never raises (it is a total function of the
grid), and whenever every cell present in the grid exposes a readable
hotel-link `onclick` attribute in which the hotel identifier does not occur,
the returned availability mapping is empty. -/
theorem C4_extraction_absent_hotel (g : Grid) (hotelId : String)
    (hlinks : ∀ r d cl, g.cells r d = some cl →
      ∃ s, cl.hotelLinkOnclick = some s ∧ pyInStr hotelId s = false) :
    get_hotel_availability g hotelId = [] := by
  have hscan : ∀ day, scanRows g hotelId day 30 0 none = none := fun day =>
    scanRows_none_of_absent g hotelId day
      (fun r cl hc => hlinks r day cl hc) 30 0
  have hdays : ∀ (days : List Nat) (acc : List (String × String)),
      extractDays g hotelId days acc = acc := by
    intro days
    induction days with
    | nil => intro acc; rfl
    | cons day rest ih =>
      intro acc
      simp only [extractDays, hscan day]
      exact ih acc
  exact hdays (List.range 10) []

/-- Witness for the amended C4: a grid whose one cell links to a different
hotel yields an empty mapping for `21560043`. -/
theorem C4_extraction_absent_hotel_witness :
    get_hotel_availability (gridOfLists linkedCells linkedHeaders)
      "21560043" = [] :=
  C4_extraction_absent_hotel (gridOfLists linkedCells linkedHeaders)
    "21560043"
    (by
      intro r d cl hc
      simp only [gridOfLists, linkedCells, List.find?] at hc
      by_cases h : (0 == r && 0 == d) = true
      · rw [h] at hc
        simp only [cond_true, Option.map_some] at hc
        cases hc
        exact ⟨"SelectPro(21560099)", rfl, by decide⟩
      · rw [Bool.not_eq_true] at h
        rw [h] at hc
        simp at hc)
